import Mathlib

/-!
Shallow embedding of the LangGraph-based infrastructure agents of this
repository (`src/app/agents/device2_agent.py`, `src/app/agents/netbox_agent.py`,
`src/app/main_agent.py`).  External effects (the chat-completion service,
pyATS device I/O, HTTP requests against the NetBox API) are passed in as
explicit oracle parameters; the per-agent `call_llm` / `call_tool` nodes
and the compiled graph are modelled as pure state transformers.  The
compiled `StateGraph` is modelled as iterated dispatch on the state's
`next` field (the only routing information the nodes compute): `next =
"assistant"` runs the llm node, `next = "action"` runs the tool node,
`next = "end"` is terminal.  A Python exception that the source does not
catch is modelled as an `Except`-style error value that the surrounding
definitions propagate unchanged.
-/

/-- A structured tool call as carried on an assistant message
(`tool_call["id"]`, `tool_call["name"]`, `tool_call["args"]`); the
argument mapping is modelled as an association list of string-valued
fields. -/
structure ToolCall where
  id : String
  tool : String
  args : List (String × String)
deriving DecidableEq

/-- One conversation message dict, as built by the agents.  Optional keys
of the Python dicts (`tool_calls` on assistant messages, `tool_call_id`
and the tool name on tool messages) are `Option` fields; `none` models
the key being absent from the dict. -/
structure Message where
  role : String
  content : String
  tool_calls : Option (List ToolCall)
  tool_call_id : Option String
  tool_name : Option String
deriving DecidableEq

/-- Message `{"role": "human", "content": ...}` as built in `invoke`. -/
def humanMsg (content : String) : Message :=
  ⟨"human", content, none, none, none⟩

/-- Message `{"role": "assistant", "content": ...}` (no tool calls). -/
def assistantMsg (content : String) : Message :=
  ⟨"assistant", content, none, none, none⟩

/-- Message `{"role": "assistant", "content": ..., "tool_calls": ...}`. -/
def assistantCallsMsg (content : String) (tcs : List ToolCall) : Message :=
  ⟨"assistant", content, some tcs, none, none⟩

/-- Message `{"tool_call_id": ..., "role": "tool", "name": ..., "content": ...}`
appended by the `call_tool` nodes for one executed call. -/
def toolMsg (id nm content : String) : Message :=
  ⟨"tool", content, none, some id, some nm⟩

/-- The structured completion-service response consumed by the `call_llm`
nodes: `response.content` and `response.tool_calls`. -/
structure LLMResponse where
  content : String
  tool_calls : List ToolCall
deriving DecidableEq

/-- The graph state (`DeviceAgentState` / `NetBoxAgentState` /
`OrchestratorState`): the message log plus the `next` routing field whose
Python type is `Literal["assistant", "action", "end"]`. -/
structure AgentState where
  messages : List Message
  next : String
deriving DecidableEq

/-- Python `tool_args.get(key, "")`: look the key up in the argument
mapping, defaulting to the empty string when the key is absent. -/
def argGet (args : List (String × String)) (key : String) : String :=
  match args.lookup key with
  | some v => v
  | none => ""

/-- The `call_llm` node shared verbatim by `netbox_agent.create_netbox_agent`
(lines 163-174) and `main_agent.create_orchestrator` (lines 132-143): the
completion response is appended as one assistant message; a truthy
(non-empty) `tool_calls` list routes to `"action"` and is stored on the
message, otherwise the node routes to `"end"`. -/
def call_llm (response : LLMResponse) (state : AgentState) : AgentState :=
  if response.tool_calls ≠ [] then
    ⟨state.messages ++ [assistantCallsMsg response.content response.tool_calls], "action"⟩
  else
    ⟨state.messages ++ [assistantMsg response.content], "end"⟩

/-- One entry of the static `tools` list of `device2_agent` (only the
fields its `call_llm` guard inspects: the function name, plus the declared
required parameters). -/
structure ToolSchema where
  fn_name : String
  required : List String
deriving DecidableEq

/-- The static `tools` list of `device2_agent.py` (lines 81-99): a single
function schema named `run_command_tool` requiring `input_text`. -/
def device2_tools : List ToolSchema :=
  [⟨"run_command_tool", ["input_text"]⟩]

/-- The `call_llm` node of `device2_agent.create_device_agent` (lines
133-147).  It first evaluates
`if not any(tool["function"]["name"] == "run_command_tool" for tool in tools ...)`
over the static `tools` list and would end immediately if that guard
fired; since `device2_tools` does declare `run_command_tool` the guard is
vacuously false and the node continues exactly like the shared
`call_llm`. -/
def device2_call_llm (response : LLMResponse) (state : AgentState) : AgentState :=
  if ¬ (device2_tools.any fun t => t.fn_name == "run_command_tool") then
    ⟨state.messages ++ [assistantMsg response.content], "end"⟩
  else
    call_llm response state

/-- External effects used by `run_linux_command` (pyATS testbed loading and
device I/O), passed as an oracle.  `loadTestbed` models
`loader.load('../testbed.yaml')` returning the set of device names (or a
raised exception as `.error`); `connect`, `execute` and `disconnect`
model the corresponding device methods, `.error e` standing for a raised
exception whose `str(e)` is `e`. -/
structure DeviceIO where
  loadTestbed : Except String (List String)
  isConnected : String → Bool
  connect : String → Except String Unit
  execute : String → String → Except String String
  disconnect : String → Except String Unit

/-- Result dict of `run_linux_command`: either
`{"status": "completed", "device": ..., "output": ...}` or
`{"status": "error", "error": ...}`. -/
inductive CmdResult
  | completed (device output : String)
  | error (msg : String)
deriving DecidableEq

/-- Python `str(...)` rendering of the result dict, as interpolated into
`f"Result: {result}"` by the tool nodes. -/
def CmdResult.render : CmdResult → String
  | .completed d o =>
      "\x7b'status': 'completed', 'device': '" ++ d ++ "', 'output': '" ++ o ++ "'\x7d"
  | .error e =>
      "\x7b'status': 'error', 'error': '" ++ e ++ "'\x7d"

/-- `device2_agent.run_linux_command` (lines 28-55).  The whole body runs
inside `try/except Exception`, so every raised exception becomes an
`error` result; a device name absent from the testbed returns the
`not found` error dict; the device is connected when not already
connected, the command executed, the device disconnected, and the
`completed` dict returned. -/
def run_linux_command (io : DeviceIO) (command : String) (device_name : String) : CmdResult :=
  match io.loadTestbed with
  | .error e => .error e
  | .ok devices =>
    if device_name ∉ devices then
      .error ("Device '" ++ device_name ++ "' not found in testbed.")
    else
      match (if io.isConnected device_name then Except.ok () else io.connect device_name) with
      | .error e => .error e
      | .ok _ =>
        match io.execute device_name command with
        | .error e => .error e
        | .ok output =>
          match io.disconnect device_name with
          | .error e => .error e
          | .ok _ => .completed device_name output

/-- Python `s.strip()`: drop whitespace from both ends. -/
def pyStrip (s : String) : String :=
  ⟨((s.data.dropWhile Char.isWhitespace).reverse.dropWhile Char.isWhitespace).reverse⟩

/-- Python `input_text.split(":", 1)` when a colon is present: returns the
part before the first colon and the part after it, `none` when the string
has no colon. -/
def breakAtColon : List Char → Option (List Char × List Char)
  | [] => none
  | c :: cs =>
    if c = ':' then some ([], cs)
    else
      match breakAtColon cs with
      | some (p, q) => some (c :: p, q)
      | none => none

/-- `device2_agent.run_command_tool` (lines 61-79): when the input text
contains a colon it is split at the first colon, the stripped prefix is
the device name and the stripped suffix the command; otherwise the device
defaults to `"device2"` and the whole stripped text is the command.
Python `.strip()` is modelled by `pyStrip`.  The `except ValueError`
branch of the source is unreachable (a two-way split never mismatches)
and has no counterpart here. -/
def run_command_tool (io : DeviceIO) (input_text : String) : CmdResult :=
  match breakAtColon input_text.data with
  | some (p, q) => run_linux_command io (pyStrip ⟨q⟩) (pyStrip ⟨p⟩)
  | none => run_linux_command io (pyStrip input_text) "device2"

/-- The `call_tool` node body that loops over the batch, for
`device2_agent.create_device_agent` (lines 162-173) and
`main_agent.create_orchestrator` (lines 158-172): one tool message is
appended per call, in batch order, carrying the call's id and name and
the `"Result: ..."` rendering of what the tool executor returned.  The
`ToolExecutor` object (built outside the loop) is abstracted as
`exec : tool name → input text → rendered result`, applied to
`tool_call["args"].get("input_text", "")`. -/
def device2_results (exec : String → String → String) : List ToolCall → List Message
  | [] => []
  | tc :: rest =>
      toolMsg tc.id tc.tool ("Result: " ++ exec tc.tool (argGet tc.args "input_text")) ::
        device2_results exec rest

/-- The `call_tool` node of `device2_agent.create_device_agent` (lines
150-176) and, with the same shape, `main_agent.create_orchestrator`
(lines 146-175): `messages[-1]` on an empty log would raise `IndexError`
(modelled as `none`); a last message without a `tool_calls` key, or with
an empty list, routes to `"end"` unchanged; otherwise every call in the
batch is executed and its tool message appended, and the node routes back
to `"assistant"`. -/
def device2_call_tool (exec : String → String → String) (state : AgentState) :
    Option AgentState :=
  match state.messages.getLast? with
  | none => none
  | some last =>
    match last.tool_calls with
    | none => some ⟨state.messages, "end"⟩
    | some tcs =>
      if tcs = [] then some ⟨state.messages, "end"⟩
      else some ⟨state.messages ++ device2_results exec tcs, "assistant"⟩

/-- Fuel-driven worker for Python `s.replace(pat, "")` with a non-empty
pattern: scan left to right, removing each non-overlapping occurrence of
the pattern.  Fuel `s.length` is always sufficient since every step
consumes at least one character. -/
def removeAllFuel (pat : List Char) : Nat → List Char → List Char
  | 0, s => s
  | _ + 1, [] => []
  | fuel + 1, c :: cs =>
    if pat.isPrefixOf (c :: cs) then
      removeAllFuel pat fuel (cs.drop (pat.length - 1))
    else
      c :: removeAllFuel pat fuel cs

/-- Python `s.replace(pat, "")` for the non-empty patterns used here. -/
def removeAll (pat s : List Char) : List Char :=
  removeAllFuel pat s.length s

/-- Python `s.lstrip('/')`: drop leading slash characters. -/
def lstripSlash (s : List Char) : List Char :=
  s.dropWhile (fun c => c = '/')

/-- The default NetBox base URL: `os.getenv("NETBOX_BASE_URL",
"http://netbox:8080").rstrip('/')` evaluated at its default. -/
def netbox_default_url : String := "http://netbox:8080"

/-- The path normalization performed by `netbox_agent.get_netbox_data` and
`create_netbox_data` (lines 65-89): when the path starts with the
configured base URL, every occurrence of the base URL is removed
(`api_url.replace(NETBOX_URL, "")`); then, when the result does not start
with `/api/`, the prefix `/api/` is prepended to the path stripped of
leading slashes. -/
def normalize_api_url (base url : String) : String :=
  let u := if base.data.isPrefixOf url.data then removeAll base.data url.data else url.data
  if "/api/".data.isPrefixOf u then ⟨u⟩ else ⟨"/api/".data ++ lstripSlash u⟩

/-- The URL actually requested by `NetBoxController.get_api` /
`post_api` (lines 38-62): `f"{self.netbox}/{api_url.lstrip('/')}"`. -/
def get_api_full_url (base path : String) : String :=
  base ++ "/" ++ String.mk (lstripSlash path.data)

/-- `NetBoxController.get_api` (lines 38-49) with the HTTP layer as an
oracle from the requested URL to either the JSON body (serialized) or a
`requests` exception text: a failed request is caught and returned as the
`{"error": ...}` dict, a successful one returns `response.json()`. -/
def get_api (http : String → Except String String) (base path : String) : String :=
  match http (get_api_full_url base path) with
  | .ok body => body
  | .error e => "\x7b'error': 'Request failed: " ++ e ++ "'\x7d"

/-- `netbox_agent.get_netbox_data` (lines 65-76): normalize the path, then
GET it through a fresh `NetBoxController`. -/
def get_netbox_data (http : String → Except String String) (base url : String) : String :=
  get_api http base (normalize_api_url base url)

/-- `NetBoxController.post_api` (lines 51-62), the POST oracle taking the
full URL and the serialized payload. -/
def post_api (http : String → String → Except String String) (base path payload : String) :
    String :=
  match http (get_api_full_url base path) payload with
  | .ok body => body
  | .error e => "\x7b'error': 'Request failed: " ++ e ++ "'\x7d"

/-- `netbox_agent.create_netbox_data` (lines 78-89): same normalization,
then POST.  The JSON payload is carried in serialized form. -/
def create_netbox_data (http : String → String → Except String String)
    (base url payload : String) : String :=
  post_api http base (normalize_api_url base url) payload

/-- Python `tool_args.get("payload", {})` with the payload carried in
serialized form: absent key yields the empty dict. -/
def argGetPayload (args : List (String × String)) : String :=
  match args.lookup "payload" with
  | some v => v
  | none => "\x7b\x7d"

/-- The per-batch loop of `netbox_agent.call_tool` (lines 191-215): a call
named `get_netbox_data_tool` or `create_netbox_data_tool` produces one
tool message with the `"Result: ..."` rendering of the tool function's
return; any other name hits the `else: continue` branch, producing no
message at all for that call. -/
def netbox_results (httpGet : String → Except String String)
    (httpPost : String → String → Except String String) (base : String) :
    List ToolCall → List Message
  | [] => []
  | tc :: rest =>
    if tc.tool == "get_netbox_data_tool" then
      toolMsg tc.id tc.tool
          ("Result: " ++ get_netbox_data httpGet base (argGet tc.args "api_url")) ::
        netbox_results httpGet httpPost base rest
    else if tc.tool == "create_netbox_data_tool" then
      toolMsg tc.id tc.tool
          ("Result: " ++
            create_netbox_data httpPost base (argGet tc.args "api_url") (argGetPayload tc.args)) ::
        netbox_results httpGet httpPost base rest
    else
      netbox_results httpGet httpPost base rest

/-- The `call_tool` node of `netbox_agent.create_netbox_agent` (lines
177-218): same skeleton as the device2 node (`messages[-1]` raising on an
empty log is `none`; a missing or empty `tool_calls` key routes to
`"end"`), with the name-dispatching batch loop `netbox_results`. -/
def netbox_call_tool (httpGet : String → Except String String)
    (httpPost : String → String → Except String String) (base : String)
    (state : AgentState) : Option AgentState :=
  match state.messages.getLast? with
  | none => none
  | some last =>
    match last.tool_calls with
    | none => some ⟨state.messages, "end"⟩
    | some tcs =>
      if tcs = [] then some ⟨state.messages, "end"⟩
      else some ⟨state.messages ++ netbox_results httpGet httpPost base tcs, "assistant"⟩

/-- A fault escaping the graph run: an uncaught completion-service
exception (`llm.invoke` has no surrounding `try`), or the `IndexError`
of `messages[-1]` on an empty log. -/
inductive LoopFault
  | completion (e : String)
  | emptyMessages
deriving DecidableEq

/-- One superstep of the compiled graph, dispatching on the state's
`next` field.  The completion service is an oracle indexed by the step
counter, returning either a structured response or a raised exception
(`.error`), which this node does not catch. -/
def stepAgent (oracle : Nat → Except String LLMResponse)
    (llmNode : LLMResponse → AgentState → AgentState)
    (toolNode : AgentState → Option AgentState)
    (k : Nat) (st : AgentState) : Except LoopFault AgentState :=
  if st.next = "assistant" then
    match oracle k with
    | .error e => .error (.completion e)
    | .ok r => .ok (llmNode r st)
  else if st.next = "action" then
    match toolNode st with
    | none => .error .emptyMessages
    | some st2 => .ok st2
  else
    .ok st

/-- Run the compiled graph for at most `fuel` supersteps starting at step
counter `k`, stopping early at a terminal (`"end"`) state and propagating
any fault. -/
def runSteps (oracle : Nat → Except String LLMResponse)
    (llmNode : LLMResponse → AgentState → AgentState)
    (toolNode : AgentState → Option AgentState) :
    Nat → Nat → AgentState → Except LoopFault AgentState
  | 0, _, st => .ok st
  | fuel + 1, k, st =>
    if st.next = "end" then .ok st
    else
      match stepAgent oracle llmNode toolNode k st with
      | .error f => .error f
      | .ok st2 => runSteps oracle llmNode toolNode fuel (k + 1) st2

/-- The initial state built by the agents' `invoke` functions:
`{"messages": [{"role": "human", "content": input_text}], "next": "assistant"}`. -/
def initialState (input_text : String) : AgentState :=
  ⟨[humanMsg input_text], "assistant"⟩

/-- The `{"output": ...}` dict returned by `invoke`. -/
structure InvokeOutput where
  output : String
deriving DecidableEq

/-- The answer extraction of `invoke` (device2 lines 214-222, netbox lines
256-264): filter the assistant-role messages; the last one's content, or
the fixed fallback text when there is none. -/
def finalOutput (st : AgentState) : InvokeOutput :=
  match (st.messages.filter fun m => m.role == "assistant").getLast? with
  | some m => ⟨m.content⟩
  | none => ⟨"No response generated from the agent."⟩

/-- The module-level `invoke(input_text)` of `device2_agent` (lines
201-222) and `netbox_agent` (lines 243-264): build the initial state, run
the compiled graph (a raised fault propagates to the caller — `invoke`
has no `try`), and extract the `{"output": ...}` dict. -/
def invoke (oracle : Nat → Except String LLMResponse)
    (llmNode : LLMResponse → AgentState → AgentState)
    (toolNode : AgentState → Option AgentState)
    (fuel : Nat) (input_text : String) : Except LoopFault InvokeOutput :=
  match runSteps oracle llmNode toolNode fuel 0 (initialState input_text) with
  | .error f => .error f
  | .ok st => .ok (finalOutput st)

/-- A concrete device-I/O oracle: the testbed knows only `device2`,
nothing is pre-connected, connecting and disconnecting succeed, and every
execution returns the output `"ok"`. -/
def ioDev2 : DeviceIO :=
  ⟨.ok ["device2"], fun _ => false, fun _ => .ok (), fun _ _ => .ok "ok", fun _ => .ok ()⟩

/-- The `ToolExecutor({"run_command_tool": run_command_tool})` built by
`device2_agent.create_device_agent` (line 130), rendering the result dict
as interpolated by `f"Result: {result}"`.  Its behaviour at a name other
than the registered one is library-defined and never exercised in this
development. -/
def device2_executor (io : DeviceIO) (tool input : String) : String :=
  if tool == "run_command_tool" then CmdResult.render (run_command_tool io input)
  else ""

/-- A concrete GET oracle that always succeeds with a small JSON body. -/
def httpOkG : String → Except String String :=
  fun _ => .ok "\x7b'count': 1\x7d"

/-- A concrete POST oracle that always succeeds with a small JSON body. -/
def httpOkP : String → String → Except String String :=
  fun _ _ => .ok "\x7b'id': 1\x7d"

/-- A concrete well-formed call to the registered NetBox GET tool. -/
def getDevicesCall : ToolCall :=
  ⟨"call-a", "get_netbox_data_tool", [("api_url", "dcim/devices/")]⟩

/-- A concrete call whose capability name is registered nowhere. -/
def bogusCall : ToolCall :=
  ⟨"call-b", "bogus_tool", [("api_url", "dcim/devices/")]⟩

/-- Number of positions of `s` at which `pat` occurs as a substring
(used only to state the `canonical prefix present exactly once` clause of
the spec). -/
def countOcc (pat : List Char) : List Char → Nat
  | [] => 0
  | c :: cs => (if pat.isPrefixOf (c :: cs) then 1 else 0) + countOcc pat cs

/-- A completion-service oracle that always requests the same capability
call: the model perpetually asks for a tool. -/
def alwaysCallOracle : Nat → Except String LLMResponse :=
  fun _ => .ok ⟨"calling the tool", [⟨"id-loop", "run_command_tool", [("input_text", "ls")]⟩]⟩

/-- A tool executor that always returns the same rendered result. -/
def constExec : String → String → String :=
  fun _ _ => "Result: ok"

/-- A completion-service oracle whose first call raises (times out). -/
def failOracle : Nat → Except String LLMResponse :=
  fun _ => .error "completion service timed out"

/-- A completion-service oracle that immediately produces a plain final
answer with no capability calls. -/
def okOracle : Nat → Except String LLMResponse :=
  fun _ => .ok ⟨"the answer", []⟩

theorem breakAtColon_of_no_colon {s : List Char} (h : ':' ∉ s) :
    breakAtColon s = none := by
  induction s with
  | nil => rfl
  | cons c cs ih =>
    have hc : ¬ c = ':' := fun hc => h (hc ▸ List.mem_cons_self c cs)
    have hcs : ':' ∉ cs := fun hm => h (List.mem_cons_of_mem c hm)
    simp [breakAtColon, hc, ih hcs]

theorem breakAtColon_append (p q : List Char) (h : ':' ∉ p) :
    breakAtColon (p ++ ':' :: q) = some (p, q) := by
  induction p with
  | nil => simp [breakAtColon]
  | cons a as ih =>
    have ha : ¬ a = ':' := fun hc => h (hc ▸ List.mem_cons_self a as)
    have has : ':' ∉ as := fun hm => h (List.mem_cons_of_mem a hm)
    simp [breakAtColon, ha, ih has]

/-- Claim C4: if the completion response carries zero capability calls,
the reasoning node appends exactly one new assistant turn (whatever the
response's text content is) and routes to the terminal `"end"` value —
for the shared `call_llm` node and for the device2 variant alike. -/
theorem C4_no_calls_one_assistant_turn_done (response : LLMResponse) (st : AgentState)
    (h : response.tool_calls = []) :
    call_llm response st = ⟨st.messages ++ [assistantMsg response.content], "end"⟩ ∧
    device2_call_llm response st = ⟨st.messages ++ [assistantMsg response.content], "end"⟩ := by
  constructor
  · simp [call_llm, h]
  · simp [device2_call_llm, device2_tools, call_llm, h]

/-- Witness for C4 at a concrete zero-call response whose content even
looks like a request. -/
theorem C4_no_calls_one_assistant_turn_done_witness :
    call_llm ⟨"run_command_tool: ls", []⟩ (initialState "q") =
      ⟨[humanMsg "q", assistantMsg "run_command_tool: ls"], "end"⟩ ∧
    device2_call_llm ⟨"run_command_tool: ls", []⟩ (initialState "q") =
      ⟨[humanMsg "q", assistantMsg "run_command_tool: ls"], "end"⟩ :=
  C4_no_calls_one_assistant_turn_done ⟨"run_command_tool: ls", []⟩ (initialState "q") rfl

/-- Claim C10: an input string with a colon is split at its first colon,
the stripped prefix naming the device and the stripped suffix the
command; only a colon-free string defaults to device `"device2"`. -/
theorem C10_colon_split (io : DeviceIO) :
    (∀ (s : String) (p q : List Char), s.data = p ++ ':' :: q → ':' ∉ p →
        run_command_tool io s = run_linux_command io (pyStrip ⟨q⟩) (pyStrip ⟨p⟩)) ∧
    (∀ s : String, ':' ∉ s.data →
        run_command_tool io s = run_linux_command io (pyStrip s) "device2") := by
  constructor
  · intro s p q hs hp
    unfold run_command_tool
    rw [hs, breakAtColon_append p q hp]
  · intro s hs
    unfold run_command_tool
    rw [breakAtColon_of_no_colon hs]

/-- Witness for C10: the bare command `"echo a:b"` is executed against the
device named `"echo a"` (hence the not-found error), not against the
default device; a colon-free command runs on `device2`. -/
theorem C10_colon_split_witness :
    run_command_tool ioDev2 "echo a:b" = .error "Device 'echo a' not found in testbed." ∧
    run_command_tool ioDev2 "ls -la" = .completed "device2" "ok" := by
  constructor
  · rw [(C10_colon_split ioDev2).1 "echo a:b" "echo a".data "b".data rfl (by decide)]
    decide
  · rw [(C10_colon_split ioDev2).2 "ls -la" (by decide)]
    decide

/-- Claim C8: `run_linux_command` always returns a structured result and
never throws: an unknown device name yields the not-found error dict; a
connection failure and an execution failure are caught and returned as
error results; and in general the result is either `completed` carrying
the executed command's output on the requested device, or `error`
carrying an error text. -/
theorem C8_run_linux_command_classified (io : DeviceIO) (cmd dev : String) :
    (∀ devs, io.loadTestbed = .ok devs → dev ∉ devs →
        run_linux_command io cmd dev =
          .error ("Device '" ++ dev ++ "' not found in testbed.")) ∧
    (∀ devs e, io.loadTestbed = .ok devs → dev ∈ devs → io.isConnected dev = false →
        io.connect dev = .error e → run_linux_command io cmd dev = .error e) ∧
    (∀ devs e, io.loadTestbed = .ok devs → dev ∈ devs →
        (if io.isConnected dev then Except.ok () else io.connect dev) = .ok () →
        io.execute dev cmd = .error e → run_linux_command io cmd dev = .error e) ∧
    ((∃ out, run_linux_command io cmd dev = .completed dev out ∧
        io.execute dev cmd = .ok out) ∨
      (∃ e, run_linux_command io cmd dev = .error e)) := by
  refine ⟨?_, ?_, ?_, ?_⟩
  · intro devs h1 h2
    simp [run_linux_command, h1, h2]
  · intro devs e h1 h2 h3 h4
    simp [run_linux_command, h1, h2, h3, h4]
  · intro devs e h1 h2 h3 h4
    simp [run_linux_command, h1, h2, h3, h4]
  · cases h1 : io.loadTestbed with
    | error e => exact .inr ⟨e, by simp [run_linux_command, h1]⟩
    | ok devs =>
      by_cases h2 : dev ∈ devs
      · cases h3 : (if io.isConnected dev then Except.ok () else io.connect dev) with
        | error e => exact .inr ⟨e, by simp [run_linux_command, h1, h2, h3]⟩
        | ok u =>
          cases h4 : io.execute dev cmd with
          | error e => exact .inr ⟨e, by simp [run_linux_command, h1, h2, h3, h4]⟩
          | ok output =>
            cases h5 : io.disconnect dev with
            | error e => exact .inr ⟨e, by simp [run_linux_command, h1, h2, h3, h4, h5]⟩
            | ok v =>
              exact .inl ⟨output, by simp [run_linux_command, h1, h2, h3, h4, h5], rfl⟩
      · exact .inr ⟨"Device '" ++ dev ++ "' not found in testbed.",
          by simp [run_linux_command, h1, h2]⟩

/-- Witness for C8: against a testbed that only knows `device2`, asking
for `deviceX` returns the not-found error result (no exception), and the
classification also applies to the successful path. -/
theorem C8_run_linux_command_classified_witness :
    run_linux_command ioDev2 "ifconfig -a" "deviceX" =
      .error "Device 'deviceX' not found in testbed." :=
  (C8_run_linux_command_classified ioDev2 "ifconfig -a" "deviceX").1 ["device2"] rfl (by decide)

theorem netbox_results_all_unknown (httpGet : String → Except String String)
    (httpPost : String → String → Except String String) (base : String)
    (calls : List ToolCall)
    (h : ∀ tc ∈ calls,
        tc.tool ≠ "get_netbox_data_tool" ∧ tc.tool ≠ "create_netbox_data_tool") :
    netbox_results httpGet httpPost base calls = [] := by
  induction calls with
  | nil => rfl
  | cons tc rest ih =>
    have h1 := (h tc (List.mem_cons_self tc rest)).1
    have h2 := (h tc (List.mem_cons_self tc rest)).2
    have hr := ih fun tc2 hm => h tc2 (List.mem_cons_of_mem tc hm)
    simp [netbox_results, h1, h2, hr]

/-- Counterexample to claim C2 as stated: the NetBox action step, given a
batch holding one call whose capability name is not in the registry,
appends no CapabilityResult turn at all for that call — the message log
is returned unchanged (the call is silently skipped), rather than
extended with an error-payload result. -/
theorem C2_counterexample :
    netbox_call_tool httpOkG httpOkP netbox_default_url
        ⟨[humanMsg "list devices", assistantCallsMsg "using tool" [bogusCall]], "action"⟩ =
      some ⟨[humanMsg "list devices", assistantCallsMsg "using tool" [bogusCall]],
        "assistant"⟩ := by
  rfl

/-- Claim C2 (amended): a batch of capability calls whose names are all
unknown to the NetBox action step does not raise (the node returns a
state) and the loop continues to the next reasoning step (`next` becomes
`"assistant"`), but no CapabilityResult turn is synthesized for the
unknown calls: each is silently skipped and the message log is unchanged. -/
theorem C2_unknown_tool_skipped (httpGet : String → Except String String)
    (httpPost : String → String → Except String String) (base : String)
    (msgs : List Message) (content : String) (calls : List ToolCall)
    (hne : calls ≠ [])
    (h : ∀ tc ∈ calls,
        tc.tool ≠ "get_netbox_data_tool" ∧ tc.tool ≠ "create_netbox_data_tool") :
    netbox_results httpGet httpPost base calls = [] ∧
    netbox_call_tool httpGet httpPost base
        ⟨msgs ++ [assistantCallsMsg content calls], "action"⟩ =
      some ⟨msgs ++ [assistantCallsMsg content calls], "assistant"⟩ := by
  have hres := netbox_results_all_unknown httpGet httpPost base calls h
  refine ⟨hres, ?_⟩
  unfold netbox_call_tool
  rw [List.getLast?_concat]
  simp [assistantCallsMsg, hne, hres]

/-- Witness for the amended C2 at a concrete one-call batch with an
unregistered name. -/
theorem C2_unknown_tool_skipped_witness :
    netbox_results httpOkG httpOkP netbox_default_url [⟨"cw", "mystery_tool", []⟩] = [] ∧
    netbox_call_tool httpOkG httpOkP netbox_default_url
        ⟨[humanMsg "hi"] ++ [assistantCallsMsg "c" [⟨"cw", "mystery_tool", []⟩]], "action"⟩ =
      some ⟨[humanMsg "hi"] ++ [assistantCallsMsg "c" [⟨"cw", "mystery_tool", []⟩]],
        "assistant"⟩ :=
  C2_unknown_tool_skipped httpOkG httpOkP netbox_default_url [humanMsg "hi"] "c"
    [⟨"cw", "mystery_tool", []⟩] (by decide) (by decide)

/-- Counterexample to claim C3 as stated: a batch of N = 2 capability
calls processed by the NetBox action step yields only one result turn —
the call with the unregistered name contributes none. -/
theorem C3_counterexample :
    (netbox_results httpOkG httpOkP netbox_default_url [getDevicesCall, bogusCall]).length
      = 1 := by
  rfl

/-- Claim C3 (amended): the device2/orchestrator action step appends
exactly one result turn per call, in batch order, the i-th result
carrying the i-th call's id; the NetBox action step does so only for the
sub-batch of calls whose name is one of its two registered tools (in
original order, ids matching), and skips the rest. -/
theorem C3_batch_results_ids (exec : String → String → String)
    (httpGet : String → Except String String)
    (httpPost : String → String → Except String String) (base : String)
    (calls : List ToolCall) :
    (device2_results exec calls).map Message.tool_call_id =
      calls.map (fun tc => some tc.id) ∧
    (netbox_results httpGet httpPost base calls).map Message.tool_call_id =
      (calls.filter fun tc =>
          tc.tool == "get_netbox_data_tool" || tc.tool == "create_netbox_data_tool").map
        (fun tc => some tc.id) := by
  constructor
  · induction calls with
    | nil => rfl
    | cons tc rest ih => simp [device2_results, toolMsg, ih]
  · induction calls with
    | nil => rfl
    | cons tc rest ih =>
      by_cases h1 : tc.tool = "get_netbox_data_tool"
      · simp [netbox_results, List.filter_cons, h1, toolMsg, ih]
      · by_cases h2 : tc.tool = "create_netbox_data_tool"
        · simp [netbox_results, List.filter_cons, h1, h2, toolMsg, ih]
        · simp [netbox_results, List.filter_cons, h1, h2, ih]

/-- Counterexample to claim C6 as stated: a `run_command_tool` call whose
argument mapping lacks the required `input_text` field does not produce
an error payload about the missing field: the empty-string default is
silently substituted, the handler runs, and with a healthy device the
synthesized result is a success payload (`'status': 'completed'`). -/
theorem C6_counterexample :
    device2_call_tool (device2_executor ioDev2)
        ⟨[humanMsg "run it", assistantCallsMsg "calling" [⟨"call6", "run_command_tool", []⟩]],
          "action"⟩ =
      some ⟨[humanMsg "run it", assistantCallsMsg "calling" [⟨"call6", "run_command_tool", []⟩],
          toolMsg "call6" "run_command_tool"
            "Result: \x7b'status': 'completed', 'device': 'device2', 'output': 'ok'\x7d"],
        "assistant"⟩ := by
  rfl

/-- Claim C6 (amended): a capability call whose argument mapping is
missing the declared `input_text` field does not crash the action step;
the Python `.get("input_text", "")` default silently substitutes the
empty string and the handler is invoked on it — no missing-field error
payload is synthesized. -/
theorem C6_missing_field_default (exec : String → String → String)
    (msgs : List Message) (content : String) (tc : ToolCall)
    (h : tc.args.lookup "input_text" = none) :
    device2_call_tool exec ⟨msgs ++ [assistantCallsMsg content [tc]], "action"⟩ =
      some ⟨(msgs ++ [assistantCallsMsg content [tc]]) ++
          [toolMsg tc.id tc.tool ("Result: " ++ exec tc.tool "")], "assistant"⟩ := by
  unfold device2_call_tool
  rw [List.getLast?_concat]
  simp [assistantCallsMsg, device2_results, argGet, h]

/-- Witness for the amended C6: with arguments `[("text", "ls")]` (no
`input_text` key) the handler is invoked on the empty string. -/
theorem C6_missing_field_default_witness :
    device2_call_tool (device2_executor ioDev2)
        ⟨[humanMsg "go"] ++ [assistantCallsMsg "c" [⟨"c6", "run_command_tool", [("text", "ls")]⟩]],
          "action"⟩ =
      some ⟨([humanMsg "go"] ++
            [assistantCallsMsg "c" [⟨"c6", "run_command_tool", [("text", "ls")]⟩]]) ++
          [toolMsg "c6" "run_command_tool"
            ("Result: " ++ device2_executor ioDev2 "run_command_tool" "")], "assistant"⟩ :=
  C6_missing_field_default (device2_executor ioDev2) [humanMsg "go"] "c"
    ⟨"c6", "run_command_tool", [("text", "ls")]⟩ (by decide)

/-- Counterexample to claim C7 as stated: the path fragment
`"api/dcim/devices/"` is normalized to `"/api/api/dcim/devices/"` — the
canonical `/api/` prefix ends up present twice, and the handler
dispatches to the doubled URL. -/
theorem C7_counterexample :
    countOcc "/api/".data
        (normalize_api_url netbox_default_url "api/dcim/devices/").data = 2 ∧
    get_api_full_url netbox_default_url
        (normalize_api_url netbox_default_url "api/dcim/devices/") =
      "http://netbox:8080/api/api/dcim/devices/" := by
  constructor
  · decide
  · decide

/-- Claim C7 (amended): the GET handler strips the configured base-URL
prefix and guarantees the dispatched path starts with the canonical
`/api/` prefix, never prepending it when the (base-stripped) path already
starts with `/api/`; calling it with the fully qualified URL formed from
the configured base URL plus `/api/dcim/devices/` dispatches to the same
final URL, and returns the same payload, as calling it with the bare
fragment `"dcim/devices/"`.  (The prefix is not guaranteed to occur
exactly once for every argument: a fragment beginning `api/` without a
leading slash gets it doubled, per the counterexample.) -/
theorem C7_normalization (base url : String) :
    "/api/".data <+: (normalize_api_url base url).data ∧
    (¬ base.data.isPrefixOf url.data = true → "/api/".data.isPrefixOf url.data = true →
        normalize_api_url base url = url) ∧
    get_api_full_url netbox_default_url
        (normalize_api_url netbox_default_url (netbox_default_url ++ "/api/dcim/devices/")) =
      get_api_full_url netbox_default_url
        (normalize_api_url netbox_default_url "dcim/devices/") ∧
    ∀ http : String → Except String String,
      get_netbox_data http netbox_default_url (netbox_default_url ++ "/api/dcim/devices/") =
        get_netbox_data http netbox_default_url "dcim/devices/" := by
  refine ⟨?_, ?_, by decide, ?_⟩
  · simp only [normalize_api_url]
    split
    · split
      · next hp => exact List.isPrefixOf_iff_prefix.mp hp
      · next => exact List.prefix_append _ _
    · split
      · next hp => exact List.isPrefixOf_iff_prefix.mp hp
      · next => exact List.prefix_append _ _
  · intro h1 h2
    simp only [normalize_api_url]
    rw [if_neg h1, if_pos h2]
  · have hu : normalize_api_url netbox_default_url
        (netbox_default_url ++ "/api/dcim/devices/") =
        normalize_api_url netbox_default_url "dcim/devices/" := by decide
    intro http
    unfold get_netbox_data
    rw [hu]

/-- Witness for the amended C7 at concrete paths: a canonical non-prefixed
path is left unchanged, and the fully-qualified and bare forms fetch the
same payload. -/
theorem C7_normalization_witness :
    normalize_api_url netbox_default_url "/api/dcim/sites/" = "/api/dcim/sites/" ∧
    get_netbox_data httpOkG netbox_default_url (netbox_default_url ++ "/api/dcim/devices/") =
      get_netbox_data httpOkG netbox_default_url "dcim/devices/" :=
  ⟨(C7_normalization netbox_default_url "/api/dcim/sites/").2.1 (by decide) (by decide),
   (C7_normalization netbox_default_url "dcim/devices/").2.2.2 httpOkG⟩

theorem runSteps_end_absorbing (oracle : Nat → Except String LLMResponse)
    (llmNode : LLMResponse → AgentState → AgentState)
    (toolNode : AgentState → Option AgentState) (n k : Nat) (st : AgentState)
    (h : st.next = "end") :
    runSteps oracle llmNode toolNode n k st = .ok st := by
  cases n with
  | zero => rfl
  | succ m => simp [runSteps, h]

theorem runSteps_succ_of_step (oracle : Nat → Except String LLMResponse)
    (llmNode : LLMResponse → AgentState → AgentState)
    (toolNode : AgentState → Option AgentState) (n k : Nat) (st st2 : AgentState)
    (hne : st.next ≠ "end")
    (hstep : stepAgent oracle llmNode toolNode k st = .ok st2) :
    runSteps oracle llmNode toolNode (n + 1) k st =
      runSteps oracle llmNode toolNode n (k + 1) st2 := by
  simp [runSteps, hne, hstep]

theorem alwaysCall_invariant (n k : Nat) (st : AgentState)
    (h : st.next = "assistant" ∨
      (st.next = "action" ∧ ∃ m tcs, st.messages.getLast? = some m ∧
        m.tool_calls = some tcs ∧ tcs ≠ [])) :
    ∀ st2, runSteps alwaysCallOracle call_llm (device2_call_tool constExec) n k st = .ok st2 →
      (st2.next = "assistant" ∨
        (st2.next = "action" ∧ ∃ m tcs, st2.messages.getLast? = some m ∧
          m.tool_calls = some tcs ∧ tcs ≠ [])) := by
  induction n generalizing k st with
  | zero =>
    intro st2 h2
    cases h2
    exact h
  | succ m ih =>
    intro st2 h2
    have hne : st.next ≠ "end" := by
      rcases h with h1 | ⟨h1, _⟩ <;> simp [h1]
    rcases h with h1 | ⟨h1, m0, tcs, hlast, hcalls, hne2⟩
    · have hstep : stepAgent alwaysCallOracle call_llm (device2_call_tool constExec) k st =
          .ok ⟨st.messages ++ [assistantCallsMsg "calling the tool"
            [⟨"id-loop", "run_command_tool", [("input_text", "ls")]⟩]], "action"⟩ := by
        simp [stepAgent, h1, alwaysCallOracle, call_llm]
      rw [runSteps_succ_of_step _ _ _ m k st _ hne hstep] at h2
      refine ih (k + 1) _ (.inr ⟨rfl, _, _, List.getLast?_concat _, rfl, by simp⟩) st2 h2
    · have htool : device2_call_tool constExec st =
          some ⟨st.messages ++ device2_results constExec tcs, "assistant"⟩ := by
        simp [device2_call_tool, hlast, hcalls, hne2]
      have hstep : stepAgent alwaysCallOracle call_llm (device2_call_tool constExec) k st =
          .ok ⟨st.messages ++ device2_results constExec tcs, "assistant"⟩ := by
        simp [stepAgent, h1, htool]
      rw [runSteps_succ_of_step _ _ _ m k st _ hne hstep] at h2
      exact ih (k + 1) _ (.inl rfl) st2 h2

/-- Counterexample to claim C1 as stated: the graph enforces no iteration
or wall-clock budget — against a completion service that always requests
a capability call, no amount of supersteps ever reaches the terminal
`"end"` state (and a fortiori no `BudgetExceeded` final turn is ever
produced); the loop runs forever. -/
theorem C1_counterexample :
    ¬ ∃ (n : Nat) (st : AgentState),
        runSteps alwaysCallOracle call_llm (device2_call_tool constExec) n 0
            (initialState "check the disk") = .ok st ∧ st.next = "end" := by
  rintro ⟨n, st, hrun, hend⟩
  have h := alwaysCall_invariant n 0 (initialState "check the disk") (.inl rfl) st hrun
  rcases h with h1 | ⟨h1, _⟩ <;> exact absurd (hend ▸ h1) (by decide)

/-- Claim C1 (amended): the loop reaches `Done` exactly through the
no-capability-call branch: as soon as a reasoning step's response carries
zero capability calls, one step suffices to reach the terminal state
(whatever fuel remains), with a single final assistant turn appended; the
code configures no maximum iteration count or wall-clock budget and emits
no `BudgetExceeded` turn, and an always-calling reasoning sequence never
terminates (see the counterexample). -/
theorem C1_no_call_terminates (oracle : Nat → Except String LLMResponse)
    (toolNode : AgentState → Option AgentState) (n k : Nat) (st : AgentState)
    (r : LLMResponse) (ha : st.next = "assistant") (ho : oracle k = .ok r)
    (hr : r.tool_calls = []) :
    runSteps oracle call_llm toolNode (n + 1) k st =
      .ok ⟨st.messages ++ [assistantMsg r.content], "end"⟩ := by
  have hne : st.next ≠ "end" := by rw [ha]; decide
  have hstep : stepAgent oracle call_llm toolNode k st =
      .ok ⟨st.messages ++ [assistantMsg r.content], "end"⟩ := by
    simp [stepAgent, ha, ho, call_llm, hr]
  rw [runSteps_succ_of_step oracle call_llm toolNode n k st _ hne hstep]
  exact runSteps_end_absorbing oracle call_llm toolNode n (k + 1) _ rfl

/-- Witness for the amended C1: a first response with no capability calls
terminates the run immediately. -/
theorem C1_no_call_terminates_witness :
    runSteps okOracle call_llm (device2_call_tool constExec) 4 0 (initialState "hi") =
      .ok ⟨[humanMsg "hi", assistantMsg "the answer"], "end"⟩ :=
  C1_no_call_terminates okOracle (device2_call_tool constExec) 3 0 (initialState "hi")
    ⟨"the answer", []⟩ rfl rfl rfl

/-- Counterexample to claim C5 as stated: a completion-service failure in
the reasoning step does not transition the loop to `Done` with an
error-flagged final turn — the run aborts with the uncaught fault. -/
theorem C5_counterexample :
    runSteps failOracle call_llm (netbox_call_tool httpOkG httpOkP netbox_default_url) 5 0
        (initialState "hello") = .error (.completion "completion service timed out") := by
  rfl

/-- Claim C5 (amended): a completion-service failure during the reasoning
step is not caught anywhere: the reasoning node surfaces it as a raised
fault, the loop aborts immediately with that fault (so no automatic retry
and no further completion calls occur), no error-flagged final turn is
appended, and the fault propagates out of the loop. -/
theorem C5_completion_fault_uncaught (oracle : Nat → Except String LLMResponse)
    (llmNode : LLMResponse → AgentState → AgentState)
    (toolNode : AgentState → Option AgentState) (n k : Nat) (st : AgentState) (e : String)
    (ha : st.next = "assistant") (he : oracle k = .error e) :
    runSteps oracle llmNode toolNode (n + 1) k st = .error (.completion e) ∧
    stepAgent oracle llmNode toolNode k st = .error (.completion e) := by
  have hstep : stepAgent oracle llmNode toolNode k st = .error (.completion e) := by
    simp [stepAgent, ha, he]
  have hne : st.next ≠ "end" := by rw [ha]; decide
  exact ⟨by simp [runSteps, hne, hstep], hstep⟩

/-- Witness for the amended C5 at a concrete failing oracle. -/
theorem C5_completion_fault_uncaught_witness :
    runSteps failOracle call_llm (device2_call_tool constExec) 3 0 (initialState "hi") =
      .error (.completion "completion service timed out") ∧
    stepAgent failOracle call_llm (device2_call_tool constExec) 0 (initialState "hi") =
      .error (.completion "completion service timed out") :=
  C5_completion_fault_uncaught failOracle call_llm (device2_call_tool constExec) 2 0
    (initialState "hi") "completion service timed out" rfl rfl

/-- Counterexample to claim C9 as stated: on the completion-failure path
`invoke` does not return an `output` mapping — the unhandled fault
reaches the caller. -/
theorem C9_counterexample :
    invoke failOracle call_llm (netbox_call_tool httpOkG httpOkP netbox_default_url) 6
        "list all devices in inventory" =
      .error (.completion "completion service timed out") := by
  rfl

/-- Claim C9 (amended): whenever the graph run completes without a fault,
`invoke` returns the `output` mapping whose value is the content of the
last assistant turn of the final state, or the fixed no-response text
when no assistant turn exists; a completion-service fault, however,
propagates to the caller (see the counterexample). -/
theorem C9_invoke_output (oracle : Nat → Except String LLMResponse)
    (llmNode : LLMResponse → AgentState → AgentState)
    (toolNode : AgentState → Option AgentState) (fuel : Nat) (input : String)
    (st : AgentState)
    (h : runSteps oracle llmNode toolNode fuel 0 (initialState input) = .ok st) :
    (∀ m, (st.messages.filter fun mm => mm.role == "assistant").getLast? = some m →
        invoke oracle llmNode toolNode fuel input = .ok ⟨m.content⟩) ∧
    ((st.messages.filter fun mm => mm.role == "assistant").getLast? = none →
        invoke oracle llmNode toolNode fuel input =
          .ok ⟨"No response generated from the agent."⟩) := by
  constructor
  · intro m hm
    simp only [invoke, h, finalOutput, hm]
  · intro hm
    simp only [invoke, h, finalOutput, hm]

/-- Witness for the amended C9: a clean one-answer run returns the last
assistant turn's content under the `output` key. -/
theorem C9_invoke_output_witness :
    invoke okOracle call_llm (device2_call_tool constExec) 3 "hi" = .ok ⟨"the answer"⟩ :=
  (C9_invoke_output okOracle call_llm (device2_call_tool constExec) 3 "hi"
      ⟨[humanMsg "hi", assistantMsg "the answer"], "end"⟩ rfl).1
    (assistantMsg "the answer") rfl
